import Mathlib

/-!
Verification of the Yoast SEO audit extractor (`index.js`).

The definitions below are a shallow embedding of the source:

* JavaScript strings become `String`; a possibly-absent field becomes
  `Option String`, and the JS `x || d` idiom on strings (absent or empty
  falls back to `d`) becomes `strOrElse`.
* Numeric ids become `Nat`; the falsy id `0`/`undefined` of
  `featured_media` is modelled by `0`.
* The media cache (`mediaCache` `Map`) becomes an association list that
  is threaded through `getFeaturedImageData` explicitly, together with a
  fetch oracle `Nat → Option FetchResp` (`none` = the request failed)
  and a count of the underlying fetches a call performed.
* `axios` responses for item listings become an oracle
  `Nat → Except FetchError PageResp`, page by page.
-/

namespace YoastAudit

/-- JS `x || d` on a possibly-absent string: `undefined` and `""` both
fall back to the default. -/
def strOrElse (o : Option String) (d : String) : String :=
  match o with
  | none => d
  | some "" => d
  | some s => s

/-- JS `parseInt(h,10) || 1` for the `x-wp-totalpages` header: absent,
unparseable or `0` all give `1`. -/
def natOrOne (o : Option Nat) : Nat :=
  match o with
  | none => 1
  | some 0 => 1
  | some n => n

/-- JS `n || ''` used for `webpage.wordCount`: absent or `0` print as
the empty cell, otherwise the number. -/
def natFieldStr (o : Option Nat) : String :=
  match o with
  | none => ""
  | some 0 => ""
  | some n => toString n

/-- JS `Array.prototype.join(', ')`. -/
def joinComma : List String → String
  | [] => ""
  | [s] => s
  | s :: rest => s ++ ", " ++ joinComma rest

/-- The `{url, alt}` record produced by the media resolver. -/
structure ImageData where
  url : String
  alt : String
deriving DecidableEq, Repr

/-- Body of a successful `/media/{id}` response restricted to the
`_fields=source_url,alt_text` projection; either field may be absent. -/
structure FetchResp where
  source_url : Option String
  alt_text : Option String
deriving DecidableEq, Repr

/-- The global `mediaCache` `Map`, as an association list. -/
def MediaCache : Type := List (Nat × ImageData)

/-- `Map.has` / `Map.get` combined: first binding for an id. -/
def mcFind (mediaId : Nat) : List (Nat × ImageData) → Option ImageData
  | [] => none
  | (k, v) :: rest => if k = mediaId then some v else mcFind mediaId rest

/-- `getFeaturedImageData(mediaId)` from index.js.  Returns the
`{url, alt}` result, the cache after the call, and how many underlying
media fetches the call performed (`0` or `1`).  A failed fetch caches
and returns the literal error sentinel. -/
def getFeaturedImageData (fetch : Nat → Option FetchResp) (mediaId : Nat)
    (cache : List (Nat × ImageData)) :
    ImageData × List (Nat × ImageData) × Nat :=
  if mediaId = 0 then (⟨"", ""⟩, cache, 0)
  else
    match mcFind mediaId cache with
    | some v => (v, cache, 0)
    | none =>
      match fetch mediaId with
      | some resp =>
        let imageData : ImageData :=
          ⟨strOrElse resp.source_url "", strOrElse resp.alt_text ""⟩
        (imageData, (mediaId, imageData) :: cache, 1)
      | none =>
        let errorData : ImageData :=
          ⟨"Error fetching image", "Error fetching image"⟩
        (errorData, (mediaId, errorData) :: cache, 1)

/-- C5: calling `getFeaturedImageData` twice with the same id, the second
call starting from the cache the first call left behind, performs at most
one underlying fetch in total and returns the same `{url, alt}` both
times. -/
theorem getFeaturedImageData_memoized (fetch : Nat → Option FetchResp)
    (cache : List (Nat × ImageData)) (mediaId : Nat) :
    (getFeaturedImageData fetch mediaId
        (getFeaturedImageData fetch mediaId cache).2.1).1
      = (getFeaturedImageData fetch mediaId cache).1
    ∧ (getFeaturedImageData fetch mediaId cache).2.2
        + (getFeaturedImageData fetch mediaId
            (getFeaturedImageData fetch mediaId cache).2.1).2.2 ≤ 1 := by
  by_cases h0 : mediaId = 0
  · simp [getFeaturedImageData, h0]
  · cases hc : mcFind mediaId cache with
    | some v => simp [getFeaturedImageData, h0, hc]
    | none =>
      cases hf : fetch mediaId with
      | some resp => simp [getFeaturedImageData, h0, hc, hf, mcFind]
      | none => simp [getFeaturedImageData, h0, hc, hf, mcFind]

/-- The `keywords` field of the Article graph node: JS distinguishes an
array (joined with `', '`), a scalar (used as-is, `|| ''`), and an
absent value. -/
inductive Keywords where
  | absent : Keywords
  | scalar : String → Keywords
  | arr : List String → Keywords
deriving DecidableEq, Repr

/-- One entry of `yoast_head_json.og_image`; only `url` is read. -/
structure OgImage where
  url : String
deriving DecidableEq, Repr

/-- A node of the Yoast `schema['@graph']` list, restricted to the
fields index.js reads (`@type`, `keywords`, `wordCount`, `headline`). -/
structure GraphNode where
  atType : String
  keywords : Keywords
  wordCount : Option Nat
  headline : Option String
deriving DecidableEq, Repr

/-- The Yoast `schema` object: only `['@graph']` is read. -/
structure SchemaData where
  graph : Option (List GraphNode)
deriving DecidableEq, Repr

/-- The `yoast_head_json` blob restricted to the fields index.js reads. -/
structure YoastData where
  title : Option String
  description : Option String
  canonical : Option String
  og_title : Option String
  og_description : Option String
  og_image : Option (List OgImage)
  twitter_title : Option String
  twitter_description : Option String
  twitter_image : Option String
  schema : Option SchemaData
deriving DecidableEq, Repr

/-- A raw content item from the listing endpoint under the `_fields`
projection, tagged with its post type (`{...item, postType: type}`).
`titleRendered` and `excerptRendered` stand for `title?.rendered` and
`excerpt?.rendered`; `featured_media = 0` models the falsy/absent id. -/
structure ContentItem where
  postType : String
  id : Nat
  titleRendered : Option String
  status : String
  author : Nat
  date_gmt : String
  modified_gmt : String
  link : String
  categories : Option (List Nat)
  tags : Option (List Nat)
  comment_status : String
  template : String
  excerptRendered : Option String
  featured_media : Nat
  yoast_head_json : Option YoastData
deriving DecidableEq, Repr

/-- `yoastData.yoast_head_json || {}`. -/
def emptyYoast : YoastData :=
  ⟨none, none, none, none, none, none, none, none, none, none⟩

/-- A graph node defaulted by `|| {}` (all fields absent). -/
def emptyNode : GraphNode := ⟨"", .absent, none, none⟩

/-- `const yoastData = item.yoast_head_json || {}`. -/
def yoastDataOf (item : ContentItem) : YoastData :=
  item.yoast_head_json.getD emptyYoast

/-- `const graph = (yoastData.schema || {})['@graph'] || []`. -/
def graphOf (item : ContentItem) : List GraphNode :=
  (((yoastDataOf item).schema.getD ⟨none⟩).graph).getD []

/-- `graph.find(g => g['@type'] === 'Article') || {}`. -/
def articleOf (item : ContentItem) : GraphNode :=
  ((graphOf item).find? (fun g => g.atType == "Article")).getD emptyNode

/-- `graph.find(g => g['@type'] === 'WebPage') || {}`. -/
def webpageOf (item : ContentItem) : GraphNode :=
  ((graphOf item).find? (fun g => g.atType == "WebPage")).getD emptyNode

/-- `Array.isArray(article.keywords) ? article.keywords.join(', ')
: article.keywords || ''`. -/
def focusKeyphraseOf (item : ContentItem) : String :=
  match (articleOf item).keywords with
  | .arr l => joinComma l
  | .scalar s => s
  | .absent => ""

/-- `webpage.wordCount || ''`. -/
def wordCountOf (item : ContentItem) : String :=
  natFieldStr (webpageOf item).wordCount

/-- `(webpage.headline || '').split('</h1>').length - 1 > 1`. -/
def hasMultipleH1sOf (item : ContentItem) : Bool :=
  decide ((((webpageOf item).headline.getD "").splitOn "</h1>").length - 1 > 1)

/-- `yoastData.og_image && yoastData.og_image[0]`: the first OG-image
object when the list is present and non-empty. -/
def ogImageObjectOf (item : ContentItem) : Option OgImage :=
  match (yoastDataOf item).og_image with
  | none => none
  | some l => l.head?

/-- `const yoastTitle = yoastData.title || ''`. -/
def yoastTitleOf (item : ContentItem) : String :=
  strOrElse (yoastDataOf item).title ""

/-- `const yoastDesc = yoastData.description || ''`. -/
def yoastDescOf (item : ContentItem) : String :=
  strOrElse (yoastDataOf item).description ""

/-- `(item.categories || []).map(id => categoryCache.get(id) ||
`ID:${id}`).join(', ')`. -/
def categoryNamesOf (categoryCache : Nat → Option String)
    (item : ContentItem) : String :=
  joinComma ((item.categories.getD []).map
    (fun i => strOrElse (categoryCache i) ("ID:" ++ toString i)))

/-- Same as `categoryNamesOf`, over `item.tags` and the tag cache. -/
def tagNamesOf (tagCache : Nat → Option String) (item : ContentItem) :
    String :=
  joinComma ((item.tags.getD []).map
    (fun i => strOrElse (tagCache i) ("ID:" ++ toString i)))

/-- Splits a character list at its first `'>'`: the characters before
it and the characters after it, or `none` when there is no `'>'`. -/
def findGt : List Char → Option (List Char × List Char)
  | [] => none
  | c :: rest =>
    if c = '>' then some ([], rest)
    else
      match findGt rest with
      | some (pre, post) => some (c :: pre, post)
      | none => none

theorem findGt_length :
    ∀ (l pre post : List Char), findGt l = some (pre, post) →
      post.length < l.length := by
  intro l
  induction l with
  | nil => intro pre post h; simp [findGt] at h
  | cons c rest ih =>
    intro pre post h
    simp only [findGt] at h
    by_cases hc : c = '>'
    · rw [if_pos hc] at h
      simp only [Option.some.injEq, Prod.mk.injEq] at h
      rw [← h.2]
      simp
    · rw [if_neg hc] at h
      cases hr : findGt rest with
      | none => rw [hr] at h; simp at h
      | some pq =>
        obtain ⟨p1, p2⟩ := pq
        rw [hr] at h
        simp only [Option.some.injEq, Prod.mk.injEq] at h
        have := ih p1 p2 hr
        rw [← h.2]
        simp
        omega

/-- `.replace(/<[^>]+>/g, '')` on the character list: at each `'<'`
with a later `'>'` and at least one character in between, drop through
that `'>'`; otherwise keep scanning. -/
def stripTagsAux : List Char → List Char
  | [] => []
  | c :: rest =>
    if c = '<' then
      match hg : findGt rest with
      | some (pre, post) =>
        if pre = [] then c :: stripTagsAux rest
        else stripTagsAux post
      | none => c :: rest
    else c :: stripTagsAux rest
termination_by l => l.length
decreasing_by
  all_goals simp
  have h9 := findGt_length rest pre post hg
  omega

/-- `item.excerpt?.rendered.replace(/<[^>]+>/g, '').trim()`. -/
def stripTagsTrim (s : String) : String :=
  (String.mk (stripTagsAux s.data)).trim

/-- JS `String.prototype.startsWith`, over the character lists (the
byte-position variant in core does not reduce definitionally). -/
def strStartsWith (s p : String) : Bool := p.data.isPrefixOf s.data

/-- JS boolean rendered for the report: `b ? 'Yes' : 'No'`. -/
def yesNo (b : Bool) : String := if b then "Yes" else "No"

/-- The sequential `completenessScore++` block of `createAndSaveReport`,
over the already-extracted inputs it reads. -/
def completenessScore (cats tags : List Nat) (img : ImageData)
    (yoastDesc focusKeyphrase : String) (ogImageObject : Option OgImage) :
    Nat :=
  let s0 : Nat := 0
  let s1 := if decide (cats.length > 0) then s0 + 1 else s0
  let s2 := if decide (tags.length > 0) then s1 + 1 else s1
  let s3 := if img.url != "" && !(strStartsWith img.url "Error")
    then s2 + 1 else s2
  let s4 := if img.alt != "" then s3 + 1 else s3
  let s5 := if yoastDesc != "" then s4 + 1 else s4
  let s6 := if focusKeyphrase != "" then s5 + 1 else s5
  let s7 := if (match ogImageObject with
      | some o => o.url != ""
      | none => false)
    then s6 + 1 else s6
  s7

/-- The seven score conditions, in source order, as a list of booleans. -/
def sevenConditions (cats tags : List Nat) (img : ImageData)
    (yoastDesc focusKeyphrase : String) (ogImageObject : Option OgImage) :
    List Bool :=
  [ decide (cats.length > 0),
    decide (tags.length > 0),
    img.url != "" && !(strStartsWith img.url "Error"),
    img.alt != "",
    yoastDesc != "",
    focusKeyphrase != "",
    (match ogImageObject with
      | some o => o.url != ""
      | none => false) ]

/-- `const isTitleTooLong = yoastTitle.length > 60`. -/
def isTitleTooLongOf (item : ContentItem) : Bool :=
  decide ((yoastTitleOf item).length > 60)

/-- `const isTitleTooShort = yoastTitle.length < 30`. -/
def isTitleTooShortOf (item : ContentItem) : Bool :=
  decide ((yoastTitleOf item).length < 30)

/-- `const isDescMissing = !yoastDesc`. -/
def isDescMissingOf (item : ContentItem) : Bool :=
  yoastDescOf item == ""

/-- `const isDescTooLong = yoastDesc.length > 160`. -/
def isDescTooLongOf (item : ContentItem) : Bool :=
  decide ((yoastDescOf item).length > 160)

/-- `const isDescTooShort = yoastDesc.length > 0 && yoastDesc.length < 70`. -/
def isDescTooShortOf (item : ContentItem) : Bool :=
  decide ((yoastDescOf item).length > 0) && decide ((yoastDescOf item).length < 70)

/-- `const isOgImageMissing = !ogImageObject`. -/
def isOgImageMissingOf (item : ContentItem) : Bool :=
  (ogImageObjectOf item).isNone

/-- `const isFeaturedImageAltMissing = featuredImageData.url &&
!featuredImageData.alt`. -/
def isFeaturedImageAltMissingOf (img : ImageData) : Bool :=
  img.url != "" && img.alt == ""

/-- One flattened CSV row, field for field the object literal returned
inside `createAndSaveReport`.  Fields that index.js passes through
without a default stay `Option String` (an absent value serializes as
an empty cell). -/
structure Row where
  postType : String
  id : Nat
  title : String
  status : String
  authorName : String
  authorId : Nat
  createdDateGmt : String
  lastUpdatedDateGmt : String
  link : String
  categories : String
  tags : String
  commentStatus : String
  template : String
  excerpt : String
  featuredImageUrl : String
  featuredImageAlt : String
  yoastTitle : String
  yoastDescription : String
  yoastFocusKeyphrase : String
  yoastWordCount : String
  yoastOgTitle : Option String
  yoastOgDescription : Option String
  yoastOgImage : String
  yoastTwitterTitle : Option String
  yoastTwitterDescription : Option String
  yoastTwitterImage : Option String
  yoastCanonical : Option String
  auditSeoMetaScore : String
  auditIsTitleTooLong : String
  auditIsTitleTooShort : String
  auditIsMetaDescMissing : String
  auditIsMetaDescTooLong : String
  auditIsMetaDescTooShort : String
  auditIsOgImageMissing : String
  auditIsFeaturedImageAltMissing : String
  auditHasMultipleH1Tags : String
deriving DecidableEq, Repr

/-- The per-item body of `createAndSaveReport`'s `allData.map`, with the
awaited `getFeaturedImageData` result passed in as `img`. -/
def flattenItem (authorCache categoryCache tagCache : Nat → Option String)
    (img : ImageData) (item : ContentItem) : Row :=
  { postType := item.postType
    id := item.id
    title := strOrElse item.titleRendered "No Title"
    status := item.status
    authorName := strOrElse (authorCache item.author)
      ("ID:" ++ toString item.author)
    authorId := item.author
    createdDateGmt := item.date_gmt
    lastUpdatedDateGmt := item.modified_gmt
    link := item.link
    categories := categoryNamesOf categoryCache item
    tags := tagNamesOf tagCache item
    commentStatus := item.comment_status
    template := item.template
    excerpt := strOrElse (item.excerptRendered.map stripTagsTrim) ""
    featuredImageUrl := img.url
    featuredImageAlt := img.alt
    yoastTitle := yoastTitleOf item
    yoastDescription := yoastDescOf item
    yoastFocusKeyphrase := focusKeyphraseOf item
    yoastWordCount := wordCountOf item
    yoastOgTitle := (yoastDataOf item).og_title
    yoastOgDescription := (yoastDataOf item).og_description
    yoastOgImage := (match ogImageObjectOf item with
      | some o => o.url
      | none => "")
    yoastTwitterTitle := (yoastDataOf item).twitter_title
    yoastTwitterDescription := (yoastDataOf item).twitter_description
    yoastTwitterImage := (yoastDataOf item).twitter_image
    yoastCanonical := (yoastDataOf item).canonical
    auditSeoMetaScore :=
      toString (completenessScore (item.categories.getD [])
        (item.tags.getD []) img (yoastDescOf item) (focusKeyphraseOf item)
        (ogImageObjectOf item)) ++ " / " ++ toString (7 : Nat)
    auditIsTitleTooLong := yesNo (isTitleTooLongOf item)
    auditIsTitleTooShort := yesNo (isTitleTooShortOf item)
    auditIsMetaDescMissing := yesNo (isDescMissingOf item)
    auditIsMetaDescTooLong := yesNo (isDescTooLongOf item)
    auditIsMetaDescTooShort := yesNo (isDescTooShortOf item)
    auditIsOgImageMissing := yesNo (isOgImageMissingOf item)
    auditIsFeaturedImageAltMissing := yesNo (isFeaturedImageAltMissingOf img)
    auditHasMultipleH1Tags := yesNo (hasMultipleH1sOf item) }

/-- An axios request failure; `responseStatus` is
`error.response && error.response.status` (absent when there was no
HTTP response at all). -/
structure FetchError where
  responseStatus : Option Nat
deriving DecidableEq, Repr

/-- One page of a listing response: the item array and the parsed
`x-wp-totalpages` header. -/
structure PageResp (α : Type) where
  data : List α
  totalPagesHeader : Option Nat

/-- Sequentially requests the given pages, accumulating their items and
stopping at the first failure, like the `while (page <= totalPages)`
loop body for pages after the first. -/
def fetchPagesList {α : Type} (respond : Nat → Except FetchError (PageResp α)) :
    List Nat → Except FetchError (List α)
  | [] => .ok []
  | p :: rest =>
    match respond p with
    | .error e => .error e
    | .ok r =>
      match fetchPagesList respond rest with
      | .error e => .error e
      | .ok items => .ok (r.data ++ items)

/-- `fetchPaginatedData(postType)` of index.js: page 1 fixes the total
page count (`parseInt(header) || 1`); pages `2..totalPages` follow; any
caught error at any page makes the whole call return `[]`. -/
def fetchPaginatedData {α : Type}
    (respond : Nat → Except FetchError (PageResp α)) : List α :=
  match respond 1 with
  | .error _ => []
  | .ok r1 =>
    let totalPages := natOrOne r1.totalPagesHeader
    match fetchPagesList respond ((List.range (totalPages - 1)).map (fun k => k + 2)) with
    | .error _ => []
    | .ok items => r1.data ++ items

/-- One entry of the `/types` response object: the two fields
`getPostTypes` reads.  An absent `rest_base` is modelled by `""`
(both are falsy and filtered out identically). -/
structure TypeInfo where
  viewable : Bool
  rest_base : String
deriving DecidableEq, Repr

/-- `getPostTypes()` of index.js over the discovery response (`none` =
the request failed): filters to viewable types with a truthy
`rest_base`; a failed request is `process.exit(1)`, modelled as
`Except.error 1` carrying the exit status. -/
def getPostTypes (resp : Option (List TypeInfo)) : Except Nat (List String) :=
  match resp with
  | none => .error 1
  | some ts =>
    let availableTypes :=
      (ts.filter (fun t => t.viewable && t.rest_base != "")).map
        (fun t => t.rest_base)
    if availableTypes.length > 0 then .ok availableTypes
    else .ok ["posts", "pages"]

/-- The per-type loop of `main`: fetch each type's items, tag them with
their post type, and concatenate (a type whose fetch returned `[]`
contributes nothing). -/
def extractAllData (postTypes : List String)
    (respondFor : String → Nat → Except FetchError (PageResp ContentItem)) :
    List ContentItem :=
  (postTypes.map (fun t =>
    (fetchPaginatedData (respondFor t)).map
      (fun item => { item with postType := t }))).flatten

/-- The `allData.map` of `createAndSaveReport`, threading the media
cache through the per-item `getFeaturedImageData` calls in item order. -/
def flattenAll (authorCache categoryCache tagCache : Nat → Option String)
    (fetch : Nat → Option FetchResp) (cache : List (Nat × ImageData)) :
    List ContentItem → List Row × List (Nat × ImageData)
  | [] => ([], cache)
  | item :: rest =>
    let r := getFeaturedImageData fetch item.featured_media cache
    let tailRes := flattenAll authorCache categoryCache tagCache fetch r.2.1 rest
    (flattenItem authorCache categoryCache tagCache r.1 item :: tailRes.1,
      tailRes.2)

/-- `createAndSaveReport(allData)`: with no extracted data the report is
skipped entirely (`none` = no file written); otherwise the flattened
rows are produced. -/
def createAndSaveReport (authorCache categoryCache tagCache : Nat → Option String)
    (fetch : Nat → Option FetchResp) (allData : List ContentItem) :
    Option (List Row) :=
  if allData.length = 0 then none
  else some (flattenAll authorCache categoryCache tagCache fetch [] allData).1

/-- The tail of `main()` after the reference caches are populated:
discover post types (exit 1 on failure), extract every type's items,
and run report creation; the normal path ends with exit status 0. -/
def runMain (typesResp : Option (List TypeInfo))
    (respondFor : String → Nat → Except FetchError (PageResp ContentItem))
    (authorCache categoryCache tagCache : Nat → Option String)
    (fetch : Nat → Option FetchResp) : Option (List Row) × Nat :=
  match getPostTypes typesResp with
  | .error code => (none, code)
  | .ok postTypes =>
    (createAndSaveReport authorCache categoryCache tagCache fetch
      (extractAllData postTypes respondFor), 0)

theorem completenessScore_eq_countP (cats tags : List Nat) (img : ImageData)
    (yoastDesc focusKeyphrase : String) (ogImageObject : Option OgImage) :
    completenessScore cats tags img yoastDesc focusKeyphrase ogImageObject
      = (sevenConditions cats tags img yoastDesc focusKeyphrase
          ogImageObject).countP id := by
  simp only [completenessScore, sevenConditions]
  generalize decide (cats.length > 0) = b1
  generalize decide (tags.length > 0) = b2
  generalize (img.url != "" && !(strStartsWith img.url "Error")) = b3
  generalize (img.alt != "") = b4
  generalize (yoastDesc != "") = b5
  generalize (focusKeyphrase != "") = b6
  generalize (match ogImageObject with
    | some o => o.url != ""
    | none => false) = b7
  cases b1 <;> cases b2 <;> cases b3 <;> cases b4 <;> cases b5 <;>
    cases b6 <;> cases b7 <;> rfl

/-- C1: the score emitted in the `AUDIT: SEO Meta Score` cell is the
`completenessScore` value rendered as `<score> / 7`; that value equals
the number of satisfied conditions among the seven (non-empty
categories, non-empty tags, non-error featured-image URL, featured
image alt text, Yoast description, focus keyphrase, OG-image object
with a URL) and is at most 7. -/
theorem seo_meta_score_audit
    (authorCache categoryCache tagCache : Nat → Option String)
    (img : ImageData) (item : ContentItem) :
    (flattenItem authorCache categoryCache tagCache img item).auditSeoMetaScore
      = toString (completenessScore (item.categories.getD [])
          (item.tags.getD []) img (yoastDescOf item) (focusKeyphraseOf item)
          (ogImageObjectOf item)) ++ " / " ++ toString (7 : Nat)
    ∧ completenessScore (item.categories.getD []) (item.tags.getD []) img
        (yoastDescOf item) (focusKeyphraseOf item) (ogImageObjectOf item)
      = ((sevenConditions (item.categories.getD []) (item.tags.getD []) img
          (yoastDescOf item) (focusKeyphraseOf item)
          (ogImageObjectOf item)).countP id)
    ∧ completenessScore (item.categories.getD []) (item.tags.getD []) img
        (yoastDescOf item) (focusKeyphraseOf item) (ogImageObjectOf item)
      ≤ 7 := by
  refine ⟨rfl, completenessScore_eq_countP _ _ _ _ _ _, ?_⟩
  rw [completenessScore_eq_countP]
  calc (sevenConditions (item.categories.getD []) (item.tags.getD []) img
          (yoastDescOf item) (focusKeyphraseOf item)
          (ogImageObjectOf item)).countP id
      ≤ (sevenConditions (item.categories.getD []) (item.tags.getD []) img
          (yoastDescOf item) (focusKeyphraseOf item)
          (ogImageObjectOf item)).length := List.countP_le_length _
    _ = 7 := rfl

/-- C3: boundary behaviour of the title-length audits: a Yoast title of
length exactly 60 is not flagged too long and length 61 is; length
exactly 30 is not flagged too short and length 29 is. -/
theorem title_length_audits
    (authorCache categoryCache tagCache : Nat → Option String)
    (img : ImageData) (item : ContentItem) :
    ((yoastTitleOf item).length = 60 →
      (flattenItem authorCache categoryCache tagCache img
        item).auditIsTitleTooLong = "No")
  ∧ ((yoastTitleOf item).length = 61 →
      (flattenItem authorCache categoryCache tagCache img
        item).auditIsTitleTooLong = "Yes")
  ∧ ((yoastTitleOf item).length = 30 →
      (flattenItem authorCache categoryCache tagCache img
        item).auditIsTitleTooShort = "No")
  ∧ ((yoastTitleOf item).length = 29 →
      (flattenItem authorCache categoryCache tagCache img
        item).auditIsTitleTooShort = "Yes") := by
  refine ⟨fun h => ?_, fun h => ?_, fun h => ?_, fun h => ?_⟩ <;>
    simp only [flattenItem, isTitleTooLongOf, isTitleTooShortOf, h] <;> rfl

/-- A synthetic item whose Yoast blob carries only a title. -/
def itemWithTitle (t : String) : ContentItem :=
  { postType := "posts", id := 1, titleRendered := none, status := "publish",
    author := 0, date_gmt := "", modified_gmt := "", link := "",
    categories := none, tags := none, comment_status := "", template := "",
    excerptRendered := none, featured_media := 0,
    yoast_head_json := some { emptyYoast with title := some t } }

/-- A string of `n` copies of `a`. -/
def strOfLen (n : Nat) : String := String.mk (List.replicate n 'a')

theorem title_length_audits_witness :
    ((yoastTitleOf (itemWithTitle (strOfLen 60))).length = 60
      ∧ (flattenItem (fun _ => none) (fun _ => none) (fun _ => none) ⟨"", ""⟩
          (itemWithTitle (strOfLen 60))).auditIsTitleTooLong = "No")
  ∧ ((yoastTitleOf (itemWithTitle (strOfLen 61))).length = 61
      ∧ (flattenItem (fun _ => none) (fun _ => none) (fun _ => none) ⟨"", ""⟩
          (itemWithTitle (strOfLen 61))).auditIsTitleTooLong = "Yes")
  ∧ ((yoastTitleOf (itemWithTitle (strOfLen 30))).length = 30
      ∧ (flattenItem (fun _ => none) (fun _ => none) (fun _ => none) ⟨"", ""⟩
          (itemWithTitle (strOfLen 30))).auditIsTitleTooShort = "No")
  ∧ ((yoastTitleOf (itemWithTitle (strOfLen 29))).length = 29
      ∧ (flattenItem (fun _ => none) (fun _ => none) (fun _ => none) ⟨"", ""⟩
          (itemWithTitle (strOfLen 29))).auditIsTitleTooShort = "Yes") :=
  ⟨⟨rfl, (title_length_audits _ _ _ _ _).1 rfl⟩,
   ⟨rfl, (title_length_audits _ _ _ _ _).2.1 rfl⟩,
   ⟨rfl, (title_length_audits _ _ _ _ _).2.2.1 rfl⟩,
   ⟨rfl, (title_length_audits _ _ _ _ _).2.2.2 rfl⟩⟩

/-- C4: description audits: an empty Yoast description is flagged
missing and neither too long nor too short; a description of length
exactly 70 is not flagged too short, one of length 69 is. -/
theorem desc_length_audits
    (authorCache categoryCache tagCache : Nat → Option String)
    (img : ImageData) (item : ContentItem) :
    (yoastDescOf item = "" →
      (flattenItem authorCache categoryCache tagCache img
        item).auditIsMetaDescMissing = "Yes"
      ∧ (flattenItem authorCache categoryCache tagCache img
          item).auditIsMetaDescTooLong = "No"
      ∧ (flattenItem authorCache categoryCache tagCache img
          item).auditIsMetaDescTooShort = "No")
  ∧ ((yoastDescOf item).length = 70 →
      (flattenItem authorCache categoryCache tagCache img
        item).auditIsMetaDescTooShort = "No")
  ∧ ((yoastDescOf item).length = 69 →
      (flattenItem authorCache categoryCache tagCache img
        item).auditIsMetaDescTooShort = "Yes") := by
  refine ⟨fun h => ⟨?_, ?_, ?_⟩, fun h => ?_, fun h => ?_⟩ <;>
    simp only [flattenItem, isDescMissingOf, isDescTooLongOf,
      isDescTooShortOf, h] <;> rfl

/-- A synthetic item whose Yoast blob carries only a description. -/
def itemWithDesc (d : String) : ContentItem :=
  { postType := "posts", id := 1, titleRendered := none, status := "publish",
    author := 0, date_gmt := "", modified_gmt := "", link := "",
    categories := none, tags := none, comment_status := "", template := "",
    excerptRendered := none, featured_media := 0,
    yoast_head_json := some { emptyYoast with description := some d } }

theorem desc_length_audits_witness :
    (yoastDescOf (itemWithDesc "") = ""
      ∧ (flattenItem (fun _ => none) (fun _ => none) (fun _ => none) ⟨"", ""⟩
          (itemWithDesc "")).auditIsMetaDescMissing = "Yes"
      ∧ (flattenItem (fun _ => none) (fun _ => none) (fun _ => none) ⟨"", ""⟩
          (itemWithDesc "")).auditIsMetaDescTooLong = "No"
      ∧ (flattenItem (fun _ => none) (fun _ => none) (fun _ => none) ⟨"", ""⟩
          (itemWithDesc "")).auditIsMetaDescTooShort = "No")
  ∧ ((yoastDescOf (itemWithDesc (strOfLen 70))).length = 70
      ∧ (flattenItem (fun _ => none) (fun _ => none) (fun _ => none) ⟨"", ""⟩
          (itemWithDesc (strOfLen 70))).auditIsMetaDescTooShort = "No")
  ∧ ((yoastDescOf (itemWithDesc (strOfLen 69))).length = 69
      ∧ (flattenItem (fun _ => none) (fun _ => none) (fun _ => none) ⟨"", ""⟩
          (itemWithDesc (strOfLen 69))).auditIsMetaDescTooShort = "Yes") :=
  ⟨⟨rfl, (desc_length_audits _ _ _ _ _).1 rfl⟩,
   ⟨rfl, (desc_length_audits _ _ _ _ _).2.1 rfl⟩,
   ⟨rfl, (desc_length_audits _ _ _ _ _).2.2 rfl⟩⟩

/-- C10: an item with no Yoast title at all (blob absent, title field
absent, or title empty) is reported title-too-short = Yes and
title-too-long = No; the row has no dedicated missing-title audit, so
this is the only trace of the missing title. -/
theorem missing_title_audits
    (authorCache categoryCache tagCache : Nat → Option String)
    (img : ImageData) (item : ContentItem)
    (h : item.yoast_head_json = none
      ∨ ∃ y, item.yoast_head_json = some y
          ∧ (y.title = none ∨ y.title = some "")) :
    (flattenItem authorCache categoryCache tagCache img
      item).auditIsTitleTooShort = "Yes"
    ∧ (flattenItem authorCache categoryCache tagCache img
        item).auditIsTitleTooLong = "No" := by
  have ht : yoastTitleOf item = "" := by
    rcases h with h | ⟨y, hy, h | h⟩
    · simp only [yoastTitleOf, yoastDataOf, h]; rfl
    · simp only [yoastTitleOf, yoastDataOf, hy, Option.getD_some, h]; rfl
    · simp only [yoastTitleOf, yoastDataOf, hy, Option.getD_some, h]; rfl
  refine ⟨?_, ?_⟩ <;>
    simp only [flattenItem, isTitleTooLongOf, isTitleTooShortOf, ht] <;> rfl

theorem missing_title_audits_witness :
    ((itemWithDesc "x").yoast_head_json = none
      ∨ ∃ y, (itemWithDesc "x").yoast_head_json = some y
          ∧ (y.title = none ∨ y.title = some ""))
    ∧ (flattenItem (fun _ => none) (fun _ => none) (fun _ => none) ⟨"", ""⟩
        (itemWithDesc "x")).auditIsTitleTooShort = "Yes"
    ∧ (flattenItem (fun _ => none) (fun _ => none) (fun _ => none) ⟨"", ""⟩
        (itemWithDesc "x")).auditIsTitleTooLong = "No" :=
  ⟨Or.inr ⟨{ emptyYoast with description := some "x" }, rfl, Or.inl rfl⟩,
   (missing_title_audits (fun _ => none) (fun _ => none) (fun _ => none)
      ⟨"", ""⟩ (itemWithDesc "x")
      (Or.inr ⟨{ emptyYoast with description := some "x" }, rfl, Or.inl rfl⟩)).1,
   (missing_title_audits (fun _ => none) (fun _ => none) (fun _ => none)
      ⟨"", ""⟩ (itemWithDesc "x")
      (Or.inr ⟨{ emptyYoast with description := some "x" }, rfl, Or.inl rfl⟩)).2⟩

theorem joinComma_mem_infix (s : String) :
    ∀ l : List String, s ∈ l → s.data <:+: (joinComma l).data := by
  intro l
  induction l with
  | nil => intro h; simp at h
  | cons a rest ih =>
    intro h
    cases rest with
    | nil =>
      have : s = a := by simpa using h
      subst this
      exact List.infix_refl _
    | cons b t =>
      have hj : joinComma (a :: b :: t) = a ++ ", " ++ joinComma (b :: t) :=
        rfl
      rw [hj, String.data_append, String.data_append]
      rcases List.mem_cons.mp h with h1 | h2
      · subst h1
        rw [List.append_assoc]
        exact (List.prefix_append s.data _).isInfix
      · exact (ih h2).trans (List.suffix_append _ _).isInfix

/-- C6: an id referenced by an item's categories (or tags) that the
corresponding cache does not resolve appears in the joined
Categories/Tags cell as the literal placeholder `ID:<id>`, and an
unresolved author id makes the Author Name cell exactly `ID:<id>`;
resolution is total and never fails. -/
theorem unresolved_id_placeholder
    (authorCache categoryCache tagCache : Nat → Option String)
    (img : ImageData) (item : ContentItem) (i : Nat) :
    (i ∈ item.categories.getD [] → categoryCache i = none →
      ("ID:" ++ toString i).data <:+:
        ((flattenItem authorCache categoryCache tagCache img
          item).categories).data)
  ∧ (i ∈ item.tags.getD [] → tagCache i = none →
      ("ID:" ++ toString i).data <:+:
        ((flattenItem authorCache categoryCache tagCache img
          item).tags).data)
  ∧ (authorCache item.author = none →
      (flattenItem authorCache categoryCache tagCache img
        item).authorName = "ID:" ++ toString item.author) := by
  refine ⟨fun hm hc => ?_, fun hm hc => ?_, fun hc => ?_⟩
  · have e : (flattenItem authorCache categoryCache tagCache img
        item).categories = categoryNamesOf categoryCache item := rfl
    rw [e, categoryNamesOf]
    have hf : strOrElse (categoryCache i) ("ID:" ++ toString i)
        = "ID:" ++ toString i := by rw [hc]; rfl
    exact hf ▸ joinComma_mem_infix _ _
      (List.mem_map_of_mem (fun j => strOrElse (categoryCache j)
        ("ID:" ++ toString j)) hm)
  · have e : (flattenItem authorCache categoryCache tagCache img
        item).tags = tagNamesOf tagCache item := rfl
    rw [e, tagNamesOf]
    have hf : strOrElse (tagCache i) ("ID:" ++ toString i)
        = "ID:" ++ toString i := by rw [hc]; rfl
    exact hf ▸ joinComma_mem_infix _ _
      (List.mem_map_of_mem (fun j => strOrElse (tagCache j)
        ("ID:" ++ toString j)) hm)
  · have e : (flattenItem authorCache categoryCache tagCache img
        item).authorName
        = strOrElse (authorCache item.author)
            ("ID:" ++ toString item.author) := rfl
    rw [e, hc]
    rfl

/-- A synthetic item referencing category 42, tag 7 and author 9. -/
def itemWithRefs : ContentItem :=
  { postType := "posts", id := 2, titleRendered := none, status := "publish",
    author := 9, date_gmt := "", modified_gmt := "", link := "",
    categories := some [42], tags := some [7], comment_status := "",
    template := "", excerptRendered := none, featured_media := 0,
    yoast_head_json := none }

theorem unresolved_id_placeholder_witness :
    (42 ∈ itemWithRefs.categories.getD [] ∧ (fun _ : Nat => (none : Option String)) 42 = none
      ∧ ("ID:" ++ toString 42).data <:+:
          ((flattenItem (fun _ => none) (fun _ => none) (fun _ => none)
            ⟨"", ""⟩ itemWithRefs).categories).data)
  ∧ (7 ∈ itemWithRefs.tags.getD [] ∧
      ("ID:" ++ toString 7).data <:+:
        ((flattenItem (fun _ => none) (fun _ => none) (fun _ => none)
          ⟨"", ""⟩ itemWithRefs).tags).data)
  ∧ (flattenItem (fun _ => none) (fun _ => none) (fun _ => none)
      ⟨"", ""⟩ itemWithRefs).authorName = "ID:" ++ toString 9 :=
  ⟨⟨by decide, rfl,
    (unresolved_id_placeholder (fun _ => none) (fun _ => none)
      (fun _ => none) ⟨"", ""⟩ itemWithRefs 42).1 (by decide) rfl⟩,
   ⟨by decide,
    (unresolved_id_placeholder (fun _ => none) (fun _ => none)
      (fun _ => none) ⟨"", ""⟩ itemWithRefs 7).2.1 (by decide) rfl⟩,
   (unresolved_id_placeholder (fun _ => none) (fun _ => none)
      (fun _ => none) ⟨"", ""⟩ itemWithRefs 9).2.2 rfl⟩

/-- C7: when the page-1 listing request for a post type fails — with a
404 status or any other error — `fetchPaginatedData` returns the empty
item list, and the whole extraction is the same as if that type's
endpoint had reported zero items, so the run proceeds over the other
types. -/
theorem fetch_error_skips_type (postTypes : List String)
    (respondFor : String → Nat → Except FetchError (PageResp ContentItem))
    (t : String) (e : FetchError)
    (h : respondFor t 1 = .error e) :
    fetchPaginatedData (respondFor t) = []
  ∧ extractAllData postTypes respondFor
      = extractAllData postTypes
          (fun u => if u = t
            then (fun _ => .ok ⟨[], some 1⟩)
            else respondFor u) := by
  have h1 : fetchPaginatedData (respondFor t) = [] := by
    unfold fetchPaginatedData
    rw [h]
  refine ⟨h1, ?_⟩
  unfold extractAllData
  have h2 : fetchPaginatedData
      (fun _ : Nat =>
        (.ok ⟨[], some 1⟩ : Except FetchError (PageResp ContentItem)))
      = [] := rfl
  congr 1
  congr 1
  funext u
  by_cases hu : u = t
  · subst hu
    simp [h1, h2]
  · simp [hu]

/-- A concrete oracle where the `pages` listing 404s and every other
type returns one item on a single page. -/
def respondC7 : String → Nat → Except FetchError (PageResp ContentItem) :=
  fun u _ => if u = "pages" then .error ⟨some 404⟩
    else .ok ⟨[itemWithRefs], some 1⟩

theorem fetch_error_skips_type_witness :
    respondC7 "pages" 1 = .error ⟨some 404⟩
  ∧ fetchPaginatedData (respondC7 "pages") = []
  ∧ extractAllData ["posts", "pages"] respondC7
      = extractAllData ["posts", "pages"]
          (fun u => if u = "pages"
            then (fun _ => .ok ⟨[], some 1⟩)
            else respondC7 u) :=
  ⟨rfl,
   (fetch_error_skips_type ["posts", "pages"] respondC7 "pages"
      ⟨some 404⟩ rfl).1,
   (fetch_error_skips_type ["posts", "pages"] respondC7 "pages"
      ⟨some 404⟩ rfl).2⟩

/-- C8: post-type discovery returns the `rest_base` slugs of the
viewable entries with a non-empty slug; when that set is empty it falls
back to `["posts", "pages"]`; and when the discovery request itself
fails the process exits with the non-zero status 1. -/
theorem getPostTypes_discovery (ts : List TypeInfo) :
    ((ts.filter (fun t => t.viewable && t.rest_base != "")).map
        (fun t => t.rest_base) ≠ [] →
      getPostTypes (some ts)
        = .ok ((ts.filter (fun t => t.viewable && t.rest_base != "")).map
            (fun t => t.rest_base)))
  ∧ ((ts.filter (fun t => t.viewable && t.rest_base != "")).map
        (fun t => t.rest_base) = [] →
      getPostTypes (some ts) = .ok ["posts", "pages"])
  ∧ getPostTypes none = (Except.error 1 : Except Nat (List String))
  ∧ (1 : Nat) ≠ 0 := by
  refine ⟨fun h => ?_, fun h => ?_, rfl, one_ne_zero⟩
  · simp only [getPostTypes]
    rw [if_pos (List.length_pos.mpr h)]
  · simp [getPostTypes, h]

theorem getPostTypes_discovery_witness :
    (([⟨true, "posts"⟩, ⟨true, ""⟩, ⟨false, "x"⟩] : List TypeInfo).filter
        (fun t => t.viewable && t.rest_base != "")).map
      (fun t => t.rest_base) ≠ []
  ∧ getPostTypes (some [⟨true, "posts"⟩, ⟨true, ""⟩, ⟨false, "x"⟩])
      = .ok ["posts"]
  ∧ (([⟨false, "y"⟩] : List TypeInfo).filter
        (fun t => t.viewable && t.rest_base != "")).map
      (fun t => t.rest_base) = []
  ∧ getPostTypes (some [⟨false, "y"⟩]) = .ok ["posts", "pages"]
  ∧ getPostTypes none = (Except.error 1 : Except Nat (List String)) :=
  ⟨by decide,
   (getPostTypes_discovery [⟨true, "posts"⟩, ⟨true, ""⟩, ⟨false, "x"⟩]).1
     (by decide),
   rfl,
   (getPostTypes_discovery [⟨false, "y"⟩]).2.1 rfl,
   (getPostTypes_discovery []).2.2.1⟩

/-- C9: when extraction yields zero items across all discovered post
types, report generation is skipped entirely (no rows are produced, no
file written) and the run ends with exit status 0. -/
theorem empty_extraction_skips_report
    (typesResp : Option (List TypeInfo))
    (respondFor : String → Nat → Except FetchError (PageResp ContentItem))
    (authorCache categoryCache tagCache : Nat → Option String)
    (fetch : Nat → Option FetchResp) (postTypes : List String)
    (h1 : getPostTypes typesResp = .ok postTypes)
    (h2 : extractAllData postTypes respondFor = []) :
    runMain typesResp respondFor authorCache categoryCache tagCache fetch
      = (none, 0) := by
  unfold runMain
  rw [h1]
  show (createAndSaveReport authorCache categoryCache tagCache fetch
    (extractAllData postTypes respondFor), 0) = (none, 0)
  rw [h2]
  rfl

/-- A concrete oracle where every listing request 404s. -/
def respondC9 : String → Nat → Except FetchError (PageResp ContentItem) :=
  fun _ _ => .error ⟨some 404⟩

theorem empty_extraction_skips_report_witness :
    getPostTypes (some []) = .ok ["posts", "pages"]
  ∧ extractAllData ["posts", "pages"] respondC9 = []
  ∧ runMain (some []) respondC9 (fun _ => none) (fun _ => none)
      (fun _ => none) (fun _ => none) = (none, 0) :=
  ⟨rfl, rfl,
   empty_extraction_skips_report (some []) respondC9 (fun _ => none)
     (fun _ => none) (fun _ => none) (fun _ => none) ["posts", "pages"]
     rfl rfl⟩

/-- A synthetic item with featured media 5 and nothing else set. -/
def itemC2 : ContentItem :=
  { postType := "posts", id := 3, titleRendered := none, status := "publish",
    author := 0, date_gmt := "", modified_gmt := "", link := "",
    categories := none, tags := none, comment_status := "", template := "",
    excerptRendered := none, featured_media := 5, yoast_head_json := none }

/-- C2 counterexample: for an item whose media fetch fails and which
satisfies none of the other score conditions, the emitted score is
`1 / 7`, not `0 / 7`: the sentinel's non-empty alt text earns the
alt-text point, so the score does gain a point from the failed featured
image. -/
theorem media_error_gains_alt_point :
    (getFeaturedImageData (fun _ => none) itemC2.featured_media []).1
      = ⟨"Error fetching image", "Error fetching image"⟩
  ∧ (flattenItem (fun _ => none) (fun _ => none) (fun _ => none)
      (getFeaturedImageData (fun _ => none) itemC2.featured_media []).1
      itemC2).auditSeoMetaScore = "1 / 7"
  ∧ (flattenItem (fun _ => none) (fun _ => none) (fun _ => none)
      (getFeaturedImageData (fun _ => none) itemC2.featured_media []).1
      itemC2).auditSeoMetaScore ≠ "0 / 7" := by
  refine ⟨by decide, by decide, by decide⟩

/-- C2 (amended): a failed media fetch caches and returns the literal
error sentinel, a repeated call finds it in the cache and performs no
further fetch, the URL-based score condition earns no point — but the
alt-text condition does earn one, because the sentinel's alt string is
non-empty, so the score is exactly one more than with no image at all —
and the featured-image alt-missing flag is `No`, as for a missing
image. -/
theorem media_error_sentinel_memoized
    (fetch : Nat → Option FetchResp) (cache : List (Nat × ImageData))
    (mediaId : Nat)
    (authorCache categoryCache tagCache : Nat → Option String)
    (item : ContentItem)
    (h0 : mediaId ≠ 0) (hc : mcFind mediaId cache = none)
    (hf : fetch mediaId = none) :
    (getFeaturedImageData fetch mediaId cache).1
      = ⟨"Error fetching image", "Error fetching image"⟩
  ∧ mcFind mediaId (getFeaturedImageData fetch mediaId cache).2.1
      = some ⟨"Error fetching image", "Error fetching image"⟩
  ∧ (getFeaturedImageData fetch mediaId
      (getFeaturedImageData fetch mediaId cache).2.1).2.2 = 0
  ∧ (∀ (cats tags : List Nat) (yoastDesc keyphrase : String)
        (og : Option OgImage),
      completenessScore cats tags (getFeaturedImageData fetch mediaId cache).1
          yoastDesc keyphrase og
        = completenessScore cats tags ⟨"", ""⟩ yoastDesc keyphrase og + 1)
  ∧ (flattenItem authorCache categoryCache tagCache
      (getFeaturedImageData fetch mediaId cache).1
      item).auditIsFeaturedImageAltMissing = "No" := by
  have hr : getFeaturedImageData fetch mediaId cache
      = (⟨"Error fetching image", "Error fetching image"⟩,
         (mediaId, ⟨"Error fetching image", "Error fetching image"⟩) :: cache,
         1) := by
    simp [getFeaturedImageData, h0, hc, hf]
  refine ⟨by rw [hr], ?_, ?_, ?_, ?_⟩
  · rw [hr]; simp [mcFind]
  · rw [hr]; simp [getFeaturedImageData, h0, mcFind]
  · intro cats tags yoastDesc keyphrase og
    rw [hr]
    show completenessScore cats tags
        ⟨"Error fetching image", "Error fetching image"⟩ yoastDesc keyphrase
        og
      = completenessScore cats tags ⟨"", ""⟩ yoastDesc keyphrase og + 1
    simp only [completenessScore]
    generalize decide (cats.length > 0) = b1
    generalize decide (tags.length > 0) = b2
    generalize (yoastDesc != "") = b5
    generalize (keyphrase != "") = b6
    generalize (match og with
      | some o => o.url != ""
      | none => false) = b7
    cases b1 <;> cases b2 <;> cases b5 <;> cases b6 <;> cases b7 <;> decide
  · rw [hr]
    show yesNo (isFeaturedImageAltMissingOf
        ⟨"Error fetching image", "Error fetching image"⟩) = "No"
    decide

theorem media_error_sentinel_memoized_witness :
    (5 : Nat) ≠ 0
  ∧ mcFind 5 ([] : List (Nat × ImageData)) = none
  ∧ (fun _ : Nat => (none : Option FetchResp)) 5 = none
  ∧ (getFeaturedImageData (fun _ => none) 5 []).1
      = ⟨"Error fetching image", "Error fetching image"⟩
  ∧ (getFeaturedImageData (fun _ => none) 5
      (getFeaturedImageData (fun _ => none) 5 []).2.1).2.2 = 0 :=
  ⟨by decide, rfl, rfl,
   (media_error_sentinel_memoized (fun _ => none) [] 5 (fun _ => none)
      (fun _ => none) (fun _ => none) itemC2 (by decide) rfl rfl).1,
   (media_error_sentinel_memoized (fun _ => none) [] 5 (fun _ => none)
      (fun _ => none) (fun _ => none) itemC2 (by decide) rfl rfl).2.2.1⟩

end YoastAudit
